import Mathlib

/-!
Shallow embedding of the SortiFile document-classification pipeline
(`document_classifier.py`) and its HTTP-based variant (`classify.py`),
with theorems settling the specification claims about them.

Numeric values are modelled over `ℚ`; pixel coordinates from the OCR
engine are integers (`int(b[i])` in the source).  External services
(OCR, the layout model, OpenCV, the HTTP endpoint, Python `eval`) are
modelled as explicit inputs at the boundary where the source consumes
their results.
-/

namespace SortiFile

/-- A word bounding box as produced by the OCR engine: pixel coordinates
`(x1, y1, x2, y2)`, parsed with `int(...)` in `preprocess_image`. -/
structure Box where
  x1 : ℤ
  y1 : ℤ
  x2 : ℤ
  y2 : ℤ
deriving Repr, DecidableEq

/-- The per-box normalization loop body of `DocumentClassifier.preprocess_image`:
`x1 = int(b[1]) / width * 1000`, `y1 = (height - int(b[2])) / height * 1000`,
`x2 = int(b[3]) / width * 1000`, `y2 = (height - int(b[4])) / height * 1000`,
appended as the list `[x1, y1, x2, y2]`. -/
def normalizeBox (width height : ℚ) (b : Box) : List ℚ :=
  [(b.x1 : ℚ) / width * 1000,
   (height - (b.y1 : ℚ)) / height * 1000,
   (b.x2 : ℚ) / width * 1000,
   (height - (b.y2 : ℚ)) / height * 1000]

/-- The zero rectangle `[0, 0, 0, 0]` used to pad the bbox list. -/
def zeroBox : List ℚ := [0, 0, 0, 0]

/-- The tokenizer call in `preprocess_image` uses `padding='max_length'`,
`truncation=True` and `max_length=512`, so `encoding['input_ids'].size(1)`
is always 512. -/
def max_length : Nat := 512

/-- The length-matching step of `preprocess_image`: if there are fewer
normalized boxes than tokens, pad with zero rectangles; if more, truncate
to the input length; otherwise leave the list unchanged. -/
def padTruncateBoxes (normalized_boxes : List (List ℚ)) (input_length : Nat) :
    List (List ℚ) :=
  let num_boxes := normalized_boxes.length
  if num_boxes < input_length then
    normalized_boxes ++ List.replicate (input_length - num_boxes) zeroBox
  else if num_boxes > input_length then
    normalized_boxes.take input_length
  else
    normalized_boxes

/-- The bbox computation of `DocumentClassifier.preprocess_image`: normalize
every OCR box, then pad/truncate the list to the tokenized input length. -/
def preprocessBBoxes (width height : ℚ) (ocr_boxes : List Box)
    (input_length : Nat) : List (List ℚ) :=
  padTruncateBoxes (ocr_boxes.map (normalizeBox width height)) input_length

/-- An external contour as OpenCV reports it to `detect_logo`: its
`cv2.contourArea` and the width/height of its `cv2.boundingRect`.
OpenCV itself (threshold, contour extraction) is the external boundary;
`detect_logo`'s own logic starts from this data. -/
structure Contour where
  area : ℚ
  w : ℚ
  h : ℚ
deriving Repr, DecidableEq

/-- The contour filter loop of `DocumentClassifier.detect_logo`: keep a
contour when `area > 1000` and the bounding-rectangle aspect ratio
`w / h` satisfies `0.5 <= aspect_ratio <= 2.0`. -/
def isPotentialLogo (c : Contour) : Bool :=
  decide (1000 < c.area) &&
    (decide ((1 : ℚ) / 2 ≤ c.w / c.h) && decide (c.w / c.h ≤ 2))

/-- `DocumentClassifier.detect_logo` after the OpenCV calls: collect the
potential logo contours and return `len(potential_logos) > 0`. -/
def detect_logo (contours : List Contour) : Bool :=
  let potential_logos := contours.filter isPotentialLogo
  decide (0 < potential_logos.length)

/-- `DocumentClassifier.get_document_types`: the fixed label dictionary.
Indexing a Python dict with a missing key raises `KeyError`, so the
lookup is `Option`-valued. -/
def get_document_types (i : Nat) : Option String :=
  match i with
  | 0 => some "Invoice"
  | 1 => some "Resume"
  | 2 => some "Contract"
  | 3 => some "ID Card"
  | 4 => some "Bank Statement"
  | _ => none

/-- Scan modelling `torch.argmax` over the tail of the predictions:
`i` is the index of the next element, `bi`/`bv` the best index and value
so far; a strictly greater value replaces the best, so ties keep the
first occurrence. -/
def argmaxAux : List ℚ → Nat → Nat → ℚ → Nat
  | [], _, bi, _ => bi
  | x :: xs, i, bi, bv =>
    if bv < x then argmaxAux xs (i + 1) i x else argmaxAux xs (i + 1) bi bv

/-- `predictions.argmax().item()` on a flattened predictions vector. -/
def argmaxIdx : List ℚ → Nat
  | [] => 0
  | x :: xs => argmaxAux xs 1 0 x

/-- `predictions.max().item()` on a flattened predictions vector
(0 on the empty vector, which the pipeline never produces). -/
def maxVal : List ℚ → ℚ
  | [] => 0
  | x :: xs => xs.foldl max x

/-- The dictionary returned by `DocumentClassifier.classify_document` on
success: exactly the keys `document_type`, `confidence`, `has_logo`. -/
structure ClassificationResult where
  document_type : String
  confidence : ℚ
  has_logo : Bool
deriving Repr, DecidableEq

/-- The outcomes of the three effectful stages of `classify_document`
(preprocessing incl. image load and OCR; logo detection; model inference
plus softmax).  An `Except.error` models the stage raising an exception;
the `ok` payload of the model stage is the softmax probability vector the
pipeline reads, and the `ok` payload of preprocessing is the bbox list it
built. -/
structure PipelineEnv where
  preprocessResult : Except String (List (List ℚ))
  logoResult : Except String Bool
  modelResult : Except String (List ℚ)

/-- `DocumentClassifier.classify_document`: run the stages in order inside
the `try`; any stage exception reaches the blanket `except Exception` and
yields `None`.  On success, take the arg-max class and max probability,
boost the confidence by 0.1 when a logo is present and the class is in
`[0, 2]`, and build the result dictionary.  A `KeyError` from the label
dictionary would also be caught by the blanket handler. -/
def classify_document (env : PipelineEnv) : Option ClassificationResult :=
  match env.preprocessResult with
  | .error _ => none
  | .ok _ =>
    match env.logoResult with
    | .error _ => none
    | .ok has_logo =>
      match env.modelResult with
      | .error _ => none
      | .ok predictions =>
        let predicted_class := argmaxIdx predictions
        let confidence := maxVal predictions
        let confidence :=
          if has_logo && (predicted_class == 0 || predicted_class == 2) then
            confidence + 1 / 10
          else
            confidence
        match get_document_types predicted_class with
        | none => none
        | some dt =>
          some { document_type := dt, confidence := confidence,
                 has_logo := has_logo }

/-! The HTTP-based variant (`classify.py`). -/

/-- The JSON body `classify.py` posts to the Ollama endpoint: exactly the
fields `model`, `prompt`, `images`, `format`, `stream`. -/
structure OllamaPayload where
  model : String
  prompt : String
  images : List String
  format : String
  stream : Bool
deriving Repr, DecidableEq

/-- `MODEL_NAME` in `classify.py`. -/
def MODEL_NAME : String := "x/llama3.2-vision:latest"

/-- The prompt string built in `classify.py` (concatenation of the two
adjacent string literals). -/
def ollamaPrompt : String :=
  "Classify the document type Return only the category in JSON format."

/-- The `data` dictionary of `classify.py`: the payload sent with the
POST request, carrying the base64-encoded image. -/
def buildPayload (image_base64 : String) : OllamaPayload :=
  { model := MODEL_NAME
    prompt := ollamaPrompt
    images := [image_base64]
    format := "json"
    stream := false }

/-- The decoded JSON body of the HTTP response as `classify.py` reads it:
`response_json.get("done")` truthiness and `response_json.get("response")`
(absent key modelled as `none`; Python treats the empty string as falsy,
which the code checks separately). -/
structure OllamaResponse where
  done : Bool
  response : Option String
deriving Repr, DecidableEq

/-- Exceptions Python `eval` of the response text can raise: the code
catches `SyntaxError` and `KeyError`; anything else propagates. -/
inductive PyExc where
  | synError
  | keyError
  | other (msg : String)
deriving Repr, DecidableEq

/-- `classify.py`'s `classify_document`.  The unguarded
`open(image_path, "rb")` is `fileRead` (its exception propagates to the
caller); `send` is the POST of the payload returning the decoded JSON
body; `evalFn` models `eval(output_json)` producing a dict (as key/value
pairs) or raising.  On the success path the function returns
`document_info.get("category")` — `none` when the key is absent — and on
every guarded failure path it returns the string
"Unknown document type". -/
def classify_document_http (fileRead : Except String String)
    (send : OllamaPayload → OllamaResponse)
    (evalFn : String → Except PyExc (List (String × String))) :
    Except String (Option String) :=
  match fileRead with
  | .error e => .error e
  | .ok image_base64 =>
    let data := buildPayload image_base64
    let response_json := send data
    if response_json.done then
      match response_json.response with
      | some output_json =>
        if output_json = "" then
          .ok (some "Unknown document type")
        else
          match evalFn output_json with
          | .ok document_info => .ok (document_info.lookup "category")
          | .error .synError => .ok (some "Unknown document type")
          | .error .keyError => .ok (some "Unknown document type")
          | .error (.other m) => .error m
      | none => .ok (some "Unknown document type")
    else
      .ok (some "Unknown document type")

/-! Helper lemmas. -/

/-- Both branches of the length-matching step collapse to one equation:
keep the first `input_length` boxes and append zero rectangles for the
remaining positions. -/
theorem padTruncateBoxes_eq (bs : List (List ℚ)) (L : Nat) :
    padTruncateBoxes bs L =
      bs.take L ++ List.replicate (L - bs.length) zeroBox := by
  simp only [padTruncateBoxes]
  split_ifs with h1 h2
  · rw [List.take_of_length_le (Nat.le_of_lt h1)]
  · rw [Nat.sub_eq_zero_of_le (Nat.le_of_lt h2), List.replicate_zero,
      List.append_nil]
  · have hEq : bs.length = L := Nat.le_antisymm (Nat.le_of_not_lt h2)
      (Nat.le_of_not_lt h1)
    rw [hEq, List.take_of_length_le (Nat.le_of_eq hEq), Nat.sub_self,
      List.replicate_zero, List.append_nil]

theorem padTruncateBoxes_length (bs : List (List ℚ)) (L : Nat) :
    (padTruncateBoxes bs L).length = L := by
  rw [padTruncateBoxes_eq]
  simp only [List.length_append, List.length_take, List.length_replicate]
  omega

/-! Claim theorems. -/

/-- C1: the bbox list attached by `preprocess_image` has exactly
`input_length` entries: shorter OCR outputs are padded at the end with
zero rectangles, longer ones are truncated to the first `input_length`
normalized boxes, and an empty OCR output yields all zero rectangles;
the pipeline's `input_length` is the tokenizer's `max_length = 512`. -/
theorem C1_bbox_length_invariant (width height : ℚ) (ocr_boxes : List Box)
    (L : Nat) :
    (preprocessBBoxes width height ocr_boxes L).length = L ∧
    preprocessBBoxes width height ocr_boxes L =
      (ocr_boxes.map (normalizeBox width height)).take L ++
        List.replicate (L - ocr_boxes.length) zeroBox ∧
    preprocessBBoxes width height [] L = List.replicate L zeroBox ∧
    max_length = 512 := by
  refine ⟨padTruncateBoxes_length _ _, ?_, ?_, rfl⟩
  · rw [preprocessBBoxes, padTruncateBoxes_eq, List.length_map]
  · rw [preprocessBBoxes, padTruncateBoxes_eq]
    simp

/-- C9: padding and truncation preserve the normalized boxes as an ordered
prefix: the first `min N L` entries of the final bbox list are exactly the
first `min N L` normalized boxes in OCR emission order, and every entry
from position `min N L` up to `L - 1` is the zero rectangle — padding is
appended only at the end, never interleaved. -/
theorem C9_ordered_prefix (width height : ℚ) (ocr_boxes : List Box)
    (L : Nat) :
    (preprocessBBoxes width height ocr_boxes L).take
        (min ocr_boxes.length L) =
      (ocr_boxes.map (normalizeBox width height)).take
        (min ocr_boxes.length L) ∧
    (preprocessBBoxes width height ocr_boxes L).drop
        (min ocr_boxes.length L) =
      List.replicate (L - min ocr_boxes.length L) zeroBox := by
  have hN : (ocr_boxes.map (normalizeBox width height)).length =
      ocr_boxes.length := List.length_map _ _
  rw [preprocessBBoxes, padTruncateBoxes_eq, hN]
  constructor
  · rw [List.take_append_of_le_length
       (by rw [List.length_take, hN]; omega)]
    rw [List.take_take]
    congr 1
    omega
  · rw [List.drop_append_eq_append_drop]
    rw [List.drop_replicate]
    have htl : (List.take L (ocr_boxes.map (normalizeBox width height))).length
        = min L ocr_boxes.length := by rw [List.length_take, hN]
    rw [List.drop_eq_nil_iff.mpr (by omega)]
    rw [List.nil_append]
    congr 1
    rw [htl]
    omega

/-- C4: the normalized box for a word box `(x1, y1, x2, y2)` in a
`width × height` image is
`[x1/W*1000, (H-y1)/H*1000, x2/W*1000, (H-y2)/H*1000]`: x-coordinates
scale into the 0–1000 range, and y-coordinates are flipped so that a
smaller pixel `y` (top of image under a top-left origin) gets a strictly
larger normalized value. -/
theorem C4_normalization_formula (width height : ℚ) (hW : 0 < width)
    (hH : 0 < height) (b : Box) :
    normalizeBox width height b =
      [(b.x1 : ℚ) / width * 1000,
       (height - (b.y1 : ℚ)) / height * 1000,
       (b.x2 : ℚ) / width * 1000,
       (height - (b.y2 : ℚ)) / height * 1000] ∧
    (∀ c : Box, b.y1 < c.y1 →
      (height - (c.y1 : ℚ)) / height * 1000 <
        (height - (b.y1 : ℚ)) / height * 1000) ∧
    (0 ≤ (b.x1 : ℚ) → (b.x1 : ℚ) ≤ width →
      0 ≤ (b.x1 : ℚ) / width * 1000 ∧ (b.x1 : ℚ) / width * 1000 ≤ 1000) := by
  refine ⟨rfl, ?_, ?_⟩
  · intro c hc
    have hlt : (b.y1 : ℚ) < (c.y1 : ℚ) := by exact_mod_cast hc
    have hsub : height - (c.y1 : ℚ) < height - (b.y1 : ℚ) := by linarith
    have hdiv : (height - (c.y1 : ℚ)) / height <
        (height - (b.y1 : ℚ)) / height :=
      div_lt_div_of_pos_right hsub hH
    nlinarith [hdiv]
  · intro h0 hle
    constructor
    · positivity
    · have h1 : (b.x1 : ℚ) / width ≤ 1 := (div_le_one hW).mpr hle
      nlinarith [h1]

/-- C4 witness: the formula and bounds at the concrete box
`(10, 20, 30, 40)` in a 100 × 50 image. -/
theorem C4_normalization_formula_witness :
    normalizeBox 100 50 ⟨10, 20, 30, 40⟩ =
      [((10 : ℤ) : ℚ) / 100 * 1000, (50 - ((20 : ℤ) : ℚ)) / 50 * 1000,
       ((30 : ℤ) : ℚ) / 100 * 1000, (50 - ((40 : ℤ) : ℚ)) / 50 * 1000] :=
  (C4_normalization_formula 100 50 (by norm_num) (by norm_num)
    ⟨10, 20, 30, 40⟩).1

/-- C3 counterexample: a single solid 40 × 25 rectangle has area exactly
1000 px² (so area ≥ 1000) and aspect ratio 40/25 = 1.6 ∈ [0.5, 2.0], yet
`detect_logo` returns false, because the code keeps only contours with
area strictly greater than 1000. -/
theorem C3_area_boundary_counterexample :
    (1000 : ℚ) ≥ 1000 ∧ (1 : ℚ) / 2 ≤ 40 / 25 ∧ (40 : ℚ) / 25 ≤ 2 ∧
    detect_logo [⟨1000, 40, 25⟩] = false := by
  refine ⟨le_refl _, by norm_num, by norm_num, ?_⟩
  norm_num [detect_logo, isPotentialLogo, List.filter]

/-- C3 (amended): `detect_logo` returns true iff at least one contour has
area strictly greater than 1000 px² and bounding-rectangle aspect ratio
`w/h` in [0.5, 2.0]; in particular a single contour with area > 1000 and
aspect ratio in range yields true, and with no contour satisfying both
thresholds it yields false. -/
theorem C3_detect_logo_iff (contours : List Contour) :
    detect_logo contours = true ↔
      ∃ c ∈ contours,
        1000 < c.area ∧ (1 : ℚ) / 2 ≤ c.w / c.h ∧ c.w / c.h ≤ 2 := by
  simp [detect_logo, isPotentialLogo, List.length_pos_iff_exists_mem,
    List.mem_filter, and_assoc]

/-- Enumeration of the label dictionary: a successful lookup pins both the
index and the label. -/
theorem get_document_types_cases (i : Nat) (dt : String)
    (h : get_document_types i = some dt) :
    (i = 0 ∧ dt = "Invoice") ∨ (i = 1 ∧ dt = "Resume") ∨
    (i = 2 ∧ dt = "Contract") ∨ (i = 3 ∧ dt = "ID Card") ∨
    (i = 4 ∧ dt = "Bank Statement") := by
  match i with
  | 0 => exact Or.inl ⟨rfl, (Option.some_inj.mp h).symm⟩
  | 1 => exact Or.inr (Or.inl ⟨rfl, (Option.some_inj.mp h).symm⟩)
  | 2 => exact Or.inr (Or.inr (Or.inl ⟨rfl, (Option.some_inj.mp h).symm⟩))
  | 3 => exact Or.inr (Or.inr (Or.inr (Or.inl
      ⟨rfl, (Option.some_inj.mp h).symm⟩)))
  | 4 => exact Or.inr (Or.inr (Or.inr (Or.inr
      ⟨rfl, (Option.some_inj.mp h).symm⟩)))
  | n + 5 => exact absurd h (by simp [get_document_types])

/-- Success shape of `classify_document` with all stages succeeding. -/
theorem classify_document_ok (bb : List (List ℚ)) (has_logo : Bool)
    (predictions : List ℚ) (dt : String)
    (hdt : get_document_types (argmaxIdx predictions) = some dt) :
    classify_document ⟨.ok bb, .ok has_logo, .ok predictions⟩ =
      some ⟨dt,
        if has_logo &&
            (argmaxIdx predictions == 0 || argmaxIdx predictions == 2) then
          maxVal predictions + 1 / 10
        else
          maxVal predictions,
        has_logo⟩ := by
  simp only [classify_document]
  rw [hdt]

/-- C2: on every successful classification the final confidence is the raw
max probability plus exactly 0.1 when a logo was detected and the predicted
label is Invoice or Contract, and the raw max probability unchanged in
every other case; no clamping follows, so it may exceed 1. -/
theorem C2_logo_confidence_boost (bb : List (List ℚ)) (has_logo : Bool)
    (predictions : List ℚ) (r : ClassificationResult)
    (h : classify_document ⟨.ok bb, .ok has_logo, .ok predictions⟩ = some r) :
    r.confidence =
      if has_logo = true ∧
          (r.document_type = "Invoice" ∨ r.document_type = "Contract") then
        maxVal predictions + 1 / 10
      else
        maxVal predictions := by
  simp only [classify_document] at h
  rcases hdt : get_document_types (argmaxIdx predictions) with _ | dt
  · rw [hdt] at h
    exact absurd h (by simp)
  · rw [hdt] at h
    have hr : r = ⟨dt,
        if has_logo &&
            (argmaxIdx predictions == 0 || argmaxIdx predictions == 2) then
          maxVal predictions + 1 / 10
        else
          maxVal predictions,
        has_logo⟩ := (Option.some_inj.mp h).symm
    subst hr
    rcases get_document_types_cases _ _ hdt with
      ⟨hi, hd⟩ | ⟨hi, hd⟩ | ⟨hi, hd⟩ | ⟨hi, hd⟩ | ⟨hi, hd⟩ <;>
    subst hd <;> rw [hi] <;> cases has_logo <;> simp

/-- C2 witness: the boost rule applied to the concrete distribution
`[1, 0, 0, 0, 0]` (predicted label Invoice) with a logo present. -/
theorem C2_logo_confidence_boost_witness :
    (⟨"Invoice", 11 / 10, true⟩ : ClassificationResult).confidence =
      if true = true ∧
          ((⟨"Invoice", 11 / 10, true⟩ : ClassificationResult).document_type
              = "Invoice" ∨
            (⟨"Invoice", 11 / 10, true⟩ :
              ClassificationResult).document_type = "Contract") then
        maxVal [1, 0, 0, 0, 0] + 1 / 10
      else
        maxVal [1, 0, 0, 0, 0] :=
  C2_logo_confidence_boost [] true [1, 0, 0, 0, 0]
    ⟨"Invoice", 11 / 10, true⟩ (by
      norm_num [classify_document, argmaxIdx, argmaxAux, maxVal,
        get_document_types, List.foldl, max_def])

/-- C5: when any pipeline stage raises (its `Except` outcome is an error),
`classify_document` returns `None`: the blanket `except Exception` converts
every stage failure into the single failure signal, never a partial result
and never a propagated exception. -/
theorem C5_stage_exception_yields_none (env : PipelineEnv)
    (h : env.preprocessResult.isOk = false ∨ env.logoResult.isOk = false ∨
      env.modelResult.isOk = false) :
    classify_document env = none := by
  obtain ⟨p, l, m⟩ := env
  cases p with
  | error e => rfl
  | ok bb =>
    cases l with
    | error e => rfl
    | ok hl =>
      cases m with
      | error e => rfl
      | ok preds => simp [Except.isOk, Except.toBool] at h

/-- C5 witness: a failing image load (non-existent file) yields `None`. -/
theorem C5_stage_exception_yields_none_witness :
    classify_document
      ⟨.error "FileNotFoundError: no such file or directory", .ok true,
        .ok []⟩ = none :=
  C5_stage_exception_yields_none
    ⟨.error "FileNotFoundError: no such file or directory", .ok true, .ok []⟩
    (Or.inl rfl)

/-- The scan never leaves the index range: with a best index below the
running index, the result stays below the index past the end. -/
theorem argmaxAux_lt (xs : List ℚ) (i bi : Nat) (bv : ℚ) (hbi : bi < i) :
    argmaxAux xs i bi bv < i + xs.length := by
  induction xs generalizing i bi bv with
  | nil => simpa [argmaxAux] using hbi
  | cons x xs ih =>
    simp only [argmaxAux, List.length_cons]
    split
    · have := ih (i + 1) i x (Nat.lt_succ_self i)
      omega
    · have := ih (i + 1) bi bv (Nat.lt_succ_of_lt hbi)
      omega

/-- On a non-empty predictions vector, the arg-max index is in range. -/
theorem argmaxIdx_lt (x : ℚ) (xs : List ℚ) :
    argmaxIdx (x :: xs) < (x :: xs).length := by
  have h := argmaxAux_lt xs 1 0 x Nat.one_pos
  simp only [argmaxIdx, List.length_cons]
  omega

/-- The scan either keeps the initial best (and the running maximum is the
initial value) or lands on position `i + k` of the scanned tail, whose
element is the running maximum. -/
theorem argmaxAux_spec (xs : List ℚ) (i bi : Nat) (bv : ℚ) :
    (argmaxAux xs i bi bv = bi ∧ xs.foldl max bv = bv) ∨
    (∃ k, xs[k]? = some (xs.foldl max bv) ∧ argmaxAux xs i bi bv = i + k) := by
  induction xs generalizing i bi bv with
  | nil => exact Or.inl ⟨rfl, rfl⟩
  | cons x xs ih =>
    by_cases hx : bv < x
    · have hm : max bv x = x := max_eq_right (le_of_lt hx)
      rcases ih (i + 1) i x with ⟨h1, h2⟩ | ⟨k, h1, h2⟩
      · refine Or.inr ⟨0, ?_, ?_⟩
        · simp [List.foldl_cons, hm, h2]
        · simp [argmaxAux, hx, h1]
      · refine Or.inr ⟨k + 1, ?_, ?_⟩
        · simpa [List.foldl_cons, hm] using h1
        · simp only [argmaxAux, if_pos hx, h2]
          omega
    · have hm : max bv x = bv := max_eq_left (le_of_not_lt hx)
      rcases ih (i + 1) bi bv with ⟨h1, h2⟩ | ⟨k, h1, h2⟩
      · refine Or.inl ⟨?_, ?_⟩
        · simp [argmaxAux, hx, h1]
        · simp [List.foldl_cons, hm, h2]
      · refine Or.inr ⟨k + 1, ?_, ?_⟩
        · simpa [List.foldl_cons, hm] using h1
        · simp only [argmaxAux, if_neg hx, h2]
          omega

/-- `predictions.max()` is the element found at `predictions.argmax()`:
the two `torch` reads the pipeline combines are consistent. -/
theorem getElem_argmaxIdx_eq_maxVal (x : ℚ) (xs : List ℚ) :
    (x :: xs)[argmaxIdx (x :: xs)]? = some (maxVal (x :: xs)) := by
  rcases argmaxAux_spec xs 1 0 x with ⟨h1, h2⟩ | ⟨k, h1, h2⟩
  · simp [argmaxIdx, maxVal, h1, h2]
  · simp only [argmaxIdx, maxVal, h2, Nat.add_comm 1 k,
      List.getElem?_cons_succ]
    exact h1

/-- The running maximum is an element of the vector. -/
theorem maxVal_mem (x : ℚ) (xs : List ℚ) : maxVal (x :: xs) ∈ x :: xs := by
  have h := getElem_argmaxIdx_eq_maxVal x xs
  rw [List.getElem?_eq_some] at h
  obtain ⟨hlt, hEq⟩ := h
  exact hEq ▸ List.getElem_mem hlt

/-- Every index below 5 has a label, and that label is in the closed set. -/
theorem get_document_types_total (i : Nat) (h : i < 5) :
    ∃ dt, get_document_types i = some dt ∧
      dt ∈ ["Invoice", "Resume", "Contract", "ID Card", "Bank Statement"] := by
  interval_cases i <;>
    simp [get_document_types]

/-- C7: with every stage succeeding and the model emitting a probability
distribution over the 5 classes, `classify_document` returns a record
with exactly the fields `document_type`, `confidence`, `has_logo`:
`document_type` is the label of the arg-max index and lies in the fixed
closed label set, `has_logo` is the detector's boolean, and the raw
confidence — the probability at the arg-max, i.e. the max — is in [0, 1]
and is what `confidence` holds before the logo adjustment. -/
theorem C7_result_shape (bb : List (List ℚ)) (has_logo : Bool)
    (predictions : List ℚ) (hlen : predictions.length = 5)
    (hnn : ∀ p ∈ predictions, 0 ≤ p) (hsum : predictions.sum = 1) :
    ∃ r : ClassificationResult,
      classify_document ⟨.ok bb, .ok has_logo, .ok predictions⟩ = some r ∧
      get_document_types (argmaxIdx predictions) = some r.document_type ∧
      r.document_type ∈
        ["Invoice", "Resume", "Contract", "ID Card", "Bank Statement"] ∧
      r.has_logo = has_logo ∧
      predictions[argmaxIdx predictions]? = some (maxVal predictions) ∧
      0 ≤ maxVal predictions ∧ maxVal predictions ≤ 1 ∧
      (r.confidence = maxVal predictions ∨
        r.confidence = maxVal predictions + 1 / 10) := by
  obtain ⟨x, xs, rfl⟩ : ∃ y ys, predictions = y :: ys := by
    cases predictions with
    | nil => simp at hlen
    | cons y ys => exact ⟨y, ys, rfl⟩
  have hidx : argmaxIdx (x :: xs) < 5 := by
    have := argmaxIdx_lt x xs
    omega
  obtain ⟨dt, hdt, hmem⟩ := get_document_types_total _ hidx
  have hmax_mem := maxVal_mem x xs
  refine ⟨⟨dt,
      if has_logo && (argmaxIdx (x :: xs) == 0 || argmaxIdx (x :: xs) == 2)
      then maxVal (x :: xs) + 1 / 10 else maxVal (x :: xs), has_logo⟩,
    classify_document_ok bb has_logo (x :: xs) dt hdt, hdt, hmem, rfl,
    getElem_argmaxIdx_eq_maxVal x xs, hnn _ hmax_mem, ?_, ?_⟩
  · calc maxVal (x :: xs) ≤ (x :: xs).sum :=
          List.single_le_sum hnn _ hmax_mem
      _ = 1 := hsum
  · by_cases hc :
      (has_logo && (argmaxIdx (x :: xs) == 0 || argmaxIdx (x :: xs) == 2))
        = true
    · exact Or.inr (by simp [hc])
    · exact Or.inl (by simp [Bool.of_not_eq_true hc])

/-- C7 witness: the uniform distribution over the 5 classes with no logo. -/
theorem C7_result_shape_witness :
    ∃ r : ClassificationResult,
      classify_document
        ⟨.ok [], .ok false,
          .ok [1 / 5, 1 / 5, 1 / 5, 1 / 5, 1 / 5]⟩ = some r ∧
      get_document_types (argmaxIdx [1 / 5, 1 / 5, 1 / 5, 1 / 5, 1 / 5]) =
        some r.document_type ∧
      r.document_type ∈
        ["Invoice", "Resume", "Contract", "ID Card", "Bank Statement"] ∧
      r.has_logo = false ∧
      [(1 : ℚ) / 5, 1 / 5, 1 / 5, 1 / 5,
          1 / 5][argmaxIdx [1 / 5, 1 / 5, 1 / 5, 1 / 5, 1 / 5]]? =
        some (maxVal [1 / 5, 1 / 5, 1 / 5, 1 / 5, 1 / 5]) ∧
      0 ≤ maxVal [(1 : ℚ) / 5, 1 / 5, 1 / 5, 1 / 5, 1 / 5] ∧
      maxVal [(1 : ℚ) / 5, 1 / 5, 1 / 5, 1 / 5, 1 / 5] ≤ 1 ∧
      (r.confidence = maxVal [(1 : ℚ) / 5, 1 / 5, 1 / 5, 1 / 5, 1 / 5] ∨
        r.confidence =
          maxVal [(1 : ℚ) / 5, 1 / 5, 1 / 5, 1 / 5, 1 / 5] + 1 / 10) :=
  C7_result_shape [] false [1 / 5, 1 / 5, 1 / 5, 1 / 5, 1 / 5] rfl
    (by norm_num) (by norm_num)

/-- C8: the HTTP variant posts a JSON body with exactly the fields
`{model, prompt, images: [base64 image], format: "json", stream: false}`,
and when the response has `done = true` and a non-empty `response` string,
it obtains the result by running the Python `eval` (modelled by `evalFn`,
not a strict JSON parse) on that string and returns the dict's
`"category"` entry. -/
theorem C8_http_request_and_success_path
    (send : OllamaPayload → OllamaResponse)
    (evalFn : String → Except PyExc (List (String × String)))
    (b64 s : String) (document_info : List (String × String))
    (hsend : send (buildPayload b64) = ⟨true, some s⟩) (hs : s ≠ "")
    (he : evalFn s = .ok document_info) :
    buildPayload b64 =
      { model := "x/llama3.2-vision:latest"
        prompt :=
          "Classify the document type Return only the category in JSON format."
        images := [b64]
        format := "json"
        stream := false } ∧
    classify_document_http (.ok b64) send evalFn =
      .ok (document_info.lookup "category") := by
  refine ⟨rfl, ?_⟩
  simp [classify_document_http, hsend, he, hs]

/-- C8 witness: a concrete endpoint answering `done = true` with response
text evaluating to `{"category": "Invoice"}`. -/
theorem C8_http_request_and_success_path_witness :
    buildPayload "aW1n" =
      { model := "x/llama3.2-vision:latest"
        prompt :=
          "Classify the document type Return only the category in JSON format."
        images := ["aW1n"]
        format := "json"
        stream := false } ∧
    classify_document_http (.ok "aW1n")
        (fun _ => ⟨true, some "cat-json"⟩)
        (fun _ => .ok [("category", "Invoice")]) =
      .ok ([("category", "Invoice")].lookup "category") :=
  C8_http_request_and_success_path (fun _ => ⟨true, some "cat-json"⟩)
    (fun _ => .ok [("category", "Invoice")]) "aW1n" "cat-json"
    [("category", "Invoice")] rfl (by decide) rfl

/-- C10: unlike the pipeline variant, the HTTP variant's unguarded file
read propagates its exception to the caller; and on every guarded failure
path — `done` falsy, `response` missing or empty, or `eval` raising a
`SyntaxError` or `KeyError` — it returns the string
"Unknown document type" instead of raising. -/
theorem C10_http_error_paths (send : OllamaPayload → OllamaResponse)
    (evalFn : String → Except PyExc (List (String × String)))
    (e b64 : String)
    (hbad : (send (buildPayload b64)).done = false ∨
      (send (buildPayload b64)).response = none ∨
      (send (buildPayload b64)).response = some "" ∨
      (∃ s, (send (buildPayload b64)).response = some s ∧ s ≠ "" ∧
        (evalFn s = .error .synError ∨ evalFn s = .error .keyError))) :
    classify_document_http (.error e) send evalFn = .error e ∧
    classify_document_http (.ok b64) send evalFn =
      .ok (some "Unknown document type") := by
  refine ⟨rfl, ?_⟩
  simp only [classify_document_http]
  rcases hbad with h | h | h | ⟨s, h1, h2, h3 | h3⟩
  · simp [h]
  · simp [h]
  · simp [h]
  · simp [h1, h2, h3]
  · simp [h1, h2, h3]

/-- C10 witness: a missing file propagates its error while a `done = false`
endpoint answer yields "Unknown document type". -/
theorem C10_http_error_paths_witness :
    classify_document_http (.error "FileNotFoundError: img.png")
        (fun _ => ⟨false, none⟩) (fun _ => .ok []) =
      .error "FileNotFoundError: img.png" ∧
    classify_document_http (.ok "aW1n") (fun _ => ⟨false, none⟩)
        (fun _ => .ok []) =
      .ok (some "Unknown document type") :=
  C10_http_error_paths (fun _ => ⟨false, none⟩) (fun _ => .ok [])
    "FileNotFoundError: img.png" "aW1n" (Or.inl rfl)

end SortiFile
